import Mathlib

/-!
Shallow embedding of the uniFinance training utility.

Source files embedded:
* `src/projeto/src/data/data_load.py` — class `DataLoad`, method `load_data`.
* `src/projeto/src/train/train.py` — class `TrainModels`, methods
  `get_best_model` and `run`.

External collaborators (pandas dataframes, the configuration loader, the
MLflow tracking service, the sklearn pipeline) are modelled by explicit data
(association lists, record states, event traces); the control flow of the two
Python files is translated branch by branch.
-/

/-- A pandas dataframe, modelled as a column-name list together with the rows
in file order; each row is the list of cell values aligned with `cols`. -/
structure DataFrame where
  cols : List String
  rows : List (List String)
deriving DecidableEq, Repr

/-- The configuration returned by `load_config_file()`: a mapping from dataset
logical names to CSV file names, plus the `columns_to_use` list and the
`model_name` entry; an absent key makes `.get` return `None`. -/
structure Config where
  datasets : List (String × String)
  columns_to_use : Option (List String)
  model_name : Option String
deriving DecidableEq, Repr

/-- The filesystem visible to `pd.read_csv`: a mapping from paths to parsed
CSV contents; a path not in the mapping raises on read. -/
def FileSystem : Type := List (String × DataFrame)

/-- Embeds `os.path.join(path, "data", "raw", dataset)` — the path the loader
reads, rooted at the fixed data directory. -/
def datasetPath (file : String) : String := "data/raw/" ++ file

/-- The failures that can arise inside the `try` block of `load_data`:
the explicit `ValueError` for an unknown dataset name, and the generic
exceptions from `pd.read_csv` (missing file) and the column projection
(`columns_to_use` absent from config, or a requested column absent from the
file). -/
inductive LoadErr where
  | configError (name : String)
  | fileNotFound (path : String)
  | noColumnsConfigured
  | missingColumns
deriving DecidableEq, Repr

/-- The cell of row `r` under column `c` of dataframe `df` (label-based
indexing as pandas does it). -/
def DataFrame.cell (df : DataFrame) (r : List String) (c : String) : String :=
  ((df.cols.zip r).lookup c).getD ""

/-- Embeds `loaded_data[columns_to_use]`: pandas column projection.  It keeps
every row, in order, projected to the requested columns; a requested column
absent from the frame raises a `KeyError` (here `none`). -/
def DataFrame.select (df : DataFrame) (cs : List String) : Option DataFrame :=
  if cs.all (fun c => df.cols.contains c) then
    some ⟨cs, df.rows.map (fun r => cs.map (df.cell r))⟩
  else none

/-- Embeds the `try` block of `DataLoad.load_data`, before any `except`
handler runs.  Returns the outcome of the block together with the list of
file paths actually read (the `pd.read_csv` accesses attempted), in order. -/
def load_data_core (cfg : Config) (fs : FileSystem) (name : String) :
    Except LoadErr DataFrame × List String :=
  match cfg.datasets.lookup name with
  | none => (.error (.configError name), [])
  | some file =>
    let path := datasetPath file
    match fs.lookup path with
    | none => (.error (.fileNotFound path), [path])
    | some df =>
      match cfg.columns_to_use with
      | none => (.error .noColumnsConfigured, [path])
      | some cs =>
        match df.select cs with
        | none => (.error .missingColumns, [path])
        | some out => (.ok out, [path])

/-- What a call to `load_data` produces, seen from outside: the value returned
to the caller (the Python method returns `None` on every handled error), the
`logger.error` messages emitted, and the file paths read. -/
structure LoadOutcome where
  result : Option DataFrame
  errorLog : List String
  filesRead : List String
deriving DecidableEq, Repr

/-- The message `logger.error` emits for each handled exception: `str(ve)`
for the `ValueError` branch, the `Erro inesperado` prefix for the generic
branch. -/
def loadErrMsg : LoadErr → String
  | .configError _ => "Erro: O nome do dataset fornecido e incorreto: None"
  | .fileNotFound p => "Erro inesperado: no such file " ++ p
  | .noColumnsConfigured => "Erro inesperado: key None"
  | .missingColumns => "Erro inesperado: columns not in index"

/-- Embeds `DataLoad.load_data` whole: the `try` block, then the two `except`
handlers, which log the error and fall off the end of the method (returning
`None` to the caller). -/
def load_data (cfg : Config) (fs : FileSystem) (name : String) : LoadOutcome :=
  match load_data_core cfg fs name with
  | (.ok df, reads) => ⟨some df, [], reads⟩
  | (.error e, reads) => ⟨none, [loadErrMsg e], reads⟩

/-- The hyperparameter columns `get_best_model` extracts from the selected
run, each recorded as a string in MLflow. -/
structure Params where
  class_weight : String
  discretizer : String
  warm_start : String
  imputer : String
  solver : String
  scaler : String
  max_iter : String
  fit_intercept : String
  tol : String
  multi_class : String
  C : String
deriving DecidableEq, Repr

/-- One historical MLflow run as `mlflow.search_runs` returns it: a run
identifier, the `metrics.valid_roc_auc` value, and the recorded
hyperparameters. -/
structure MlRun where
  run_id : String
  valid_roc_auc : ℚ
  params : Params
deriving DecidableEq, Repr

/-- Embeds the filter string `metrics.valid_roc_auc < 1` of the
`mlflow.search_runs` call: only runs with metric strictly below 1 remain. -/
def eligible (runs : List MlRun) : List MlRun :=
  runs.filter (fun r => r.valid_roc_auc < 1)

/-- Embeds `sort_values(..., ascending=False)` followed by `idxmax`: the
first run attaining the maximum metric of the list (ties resolved to the
earlier run in retrieval order, one admissible resolution of pandas's
implementation-defined tie order). `none` when the list is empty, which in
pandas raises. -/
def bestOf : List MlRun → Option MlRun
  | [] => none
  | r :: rs =>
    match bestOf rs with
    | none => some r
    | some b => if b.valid_roc_auc > r.valid_roc_auc then some b else some r

/-- Embeds the crash of `get_best_model` when the filtered frame is empty:
`idxmax` on an empty series raises an unhandled pandas `ValueError`
("attempt to get argmax of an empty sequence"); no `NoEligibleRunError`
exists anywhere in the code. -/
inductive SelectErr where
  | emptyIdxmaxCrash
deriving DecidableEq, Repr

/-- Embeds `TrainModels.get_best_model`: filter the historical runs to those
with `metrics.valid_roc_auc < 1`, pick the run with the maximum metric, and
return that metric together with the selected run's hyperparameter columns
(`df_best_params`). On an empty filtered frame the pandas `idxmax` raises. -/
def get_best_model (runs : List MlRun) : Except SelectErr (ℚ × Params) :=
  match bestOf (eligible runs) with
  | none => .error .emptyIdxmaxCrash
  | some b => .ok (b.valid_roc_auc, b.params)

/-- Embeds the tracking-service query `mlflow.search_runs` as a state-passing
operation: it returns the stored run list and leaves the store unchanged (a
read-only query; it logs no new run). -/
def search_runs_st (store : List MlRun) : List MlRun × List MlRun :=
  (store, store)

/-- One invocation of `get_best_model` against the tracking store, with the
store threaded through explicitly: the result of the selection and the store
as the invocation leaves it. -/
def selectBest_st (store : List MlRun) :
    Except SelectErr (ℚ × Params) × List MlRun :=
  let q := search_runs_st store
  (get_best_model q.1, q.2)

/-- The model registry state for the configured model name: the version
numbers in creation order (MLflow numbers versions 1, 2, ...) and the current
target of the alias `"modelo"`. -/
structure Registry where
  versions : List Nat
  alias_modelo : Option Nat
deriving DecidableEq, Repr

/-- Embeds `mlflow.sklearn.log_model(..., registered_model_name=...)`: a new
version is created after the existing ones and its number returned. -/
def register_model (reg : Registry) : Registry × Nat :=
  let v := reg.versions.length + 1
  ({ reg with versions := reg.versions ++ [v] }, v)

/-- Embeds `client.get_registered_model(name).latest_versions`: the registry's
version list in creation order; `run` indexes it with `[-1]` (the last
element). -/
def latest_versions (reg : Registry) : List Nat := reg.versions

/-- The tracking-service calls `TrainModels.run` makes, in program order.
`startRun` and `endRun` delimit the `with mlflow.start_run(...)` context;
`logMetric` records the value passed to `mlflow.log_metric`; `registerModel`
is the `mlflow.sklearn.log_model` call that creates the version; `setAlias`
is `client.set_registered_model_alias`. -/
inductive Event where
  | startRun
  | setTag (key : String)
  | endRun
  | fitPipeline
  | logMetric (name : String) (value : ℚ)
  | registerModel (version : Nat)
  | setAlias (a : String) (version : Nat)
deriving DecidableEq, Repr

/-- Embeds `TrainModels.run` as a transition on the registry state, emitting
the trace of tracking-service events in the order the statements execute:
`get_best_model` (whose crash propagates), then the `with mlflow.start_run`
block containing only `set_tag` and the `LogisticRegression` construction,
then — after the context has exited — pipeline assembly, `fit`,
`predict_log_proba`, evaluation, `log_metric`, `log_model` (registration) and
the alias assignment to `latest_versions[-1]`.  `val_roc_auc` is the scalar
the external evaluation helper returned. -/
def trainRun (runs : List MlRun) (reg : Registry) (val_roc_auc : ℚ) :
    Except SelectErr (Registry × List Event) :=
  match get_best_model runs with
  | .error e => .error e
  | .ok _ =>
    let r1 := register_model reg
    let aliased := (latest_versions r1.1).getLast?
    let reg2 : Registry := { r1.1 with alias_modelo := aliased }
    .ok (reg2,
      [Event.startRun, Event.setTag "model_name", Event.endRun,
       Event.fitPipeline, Event.logMetric "valid_roc_auc" val_roc_auc,
       Event.registerModel r1.2,
       Event.setAlias "modelo" (aliased.getD 0)])

/-- True of an event that opens the scoped MLflow run context. -/
def isStartRun : Event → Bool
  | .startRun => true
  | _ => false

/-- True of an event that closes the scoped MLflow run context. -/
def isEndRun : Event → Bool
  | .endRun => true
  | _ => false

/-- True of a metric-logging event. -/
def isLogMetric : Event → Bool
  | .logMetric _ _ => true
  | _ => false

/-- True of a model-registration event. -/
def isRegisterModel : Event → Bool
  | .registerModel _ => true
  | _ => false

/-- Whether the scoped run context is open just before position `n` of the
trace: more contexts opened than closed among the first `n` events. -/
def runOpenAt (tr : List Event) (n : Nat) : Bool :=
  (tr.take n).countP isStartRun > (tr.take n).countP isEndRun

/-- The arguments `run` passes to the `LogisticRegression` constructor, as the
recorded strings they are read from.  The call passes exactly these seven
keyword arguments; no `fit_intercept` argument appears, so sklearn falls back
to its default (`fit_intercept=True`). -/
structure LogRegArgs where
  warm_start : String
  multi_class : String
  class_weight : String
  max_iter : String
  C : String
  solver : String
  tol : String
deriving DecidableEq, Repr

/-- Embeds the `LogisticRegression(...)` construction inside `run`: each
argument is drawn from the corresponding `params.*` column of the best run's
hyperparameters; `params.fit_intercept` is never read here. -/
def classifier_args (p : Params) : LogRegArgs :=
  { warm_start := p.warm_start
    multi_class := p.multi_class
    class_weight := p.class_weight
    max_iter := p.max_iter
    C := p.C
    solver := p.solver
    tol := p.tol }

/-- The sklearn default used because the constructor call omits the argument:
`fit_intercept=True`. -/
def sklearnDefaultFitIntercept : Bool := true

/-- The classifier `run` constructs: the seven passed arguments plus the
intercept-fitting behaviour, which is the library default since the call
passes no `fit_intercept`. -/
def built_classifier (p : Params) : LogRegArgs × Bool :=
  (classifier_args p, sklearnDefaultFitIntercept)

/-- The fitted pipeline, abstracted to what `run` reads off it: the
positive-class probability `predict_proba(X)[:, 1]` it assigns to each row
index of the fitting data.  sklearn's `predict_log_proba` is, by its
documented semantics, the natural logarithm of `predict_proba`. -/
structure FittedPipe where
  probaPos : Nat → ℝ

/-- Embeds `pipe.predict_proba(X)[:, 1]`: the positive-class probabilities on
the first `n` rows of the fitting data. -/
def predict_proba_pos (p : FittedPipe) (n : Nat) : List ℝ :=
  (List.range n).map p.probaPos

/-- Embeds `pipe.predict_log_proba(X)[:, 1]`: the natural logarithm of the
positive-class probability, per row of the fitting data — this is the array
`run` stores in `y_val_preds`. -/
noncomputable def predict_log_proba_pos (p : FittedPipe) (n : Nat) : List ℝ :=
  (List.range n).map (fun i => Real.log (p.probaPos i))

/-- The pair of arguments `run` passes to
`model_eval.evaluate_predictions(self.dados_y, y_val_preds)`: the true labels
and the values computed by `predict_log_proba` on the same data the pipeline
was fitted on (one prediction per label row). -/
noncomputable def evaluation_args (p : FittedPipe) (y : List ℝ) :
    List ℝ × List ℝ :=
  (y, predict_log_proba_pos p y.length)

/-- The scalar `val_roc_auc` that `run` then logs: the external evaluation
helper `ev` applied to exactly the two arguments of `evaluation_args`. -/
noncomputable def logged_eval_metric (ev : List ℝ → List ℝ → ℝ)
    (p : FittedPipe) (y : List ℝ) : ℝ :=
  ev (evaluation_args p y).1 (evaluation_args p y).2

/-- A concrete fitted pipeline assigning probability `1/2` to every row. -/
noncomputable def constHalfPipe : FittedPipe := ⟨fun _ => 1/2⟩

/-- The rational `0.62`. -/
def q62 : ℚ := Rat.mk' 31 50 (by norm_num) (by norm_num)

/-- The rational `0.81`. -/
def q81 : ℚ := Rat.mk' 81 100 (by norm_num) (by norm_num)

/-- The rational `0.95`. -/
def q95 : ℚ := Rat.mk' 19 20 (by norm_num) (by norm_num)

/-- A hyperparameter set whose every column records the string `s`. -/
def mkP (s : String) : Params := ⟨s, s, s, s, s, s, s, s, s, s, s⟩

/-- The historical run set of the spec's selection example: metrics
`{0.81, 0.95, 1.0, 0.62}` with pairwise distinct hyperparameter sets. -/
def exRuns : List MlRun :=
  [⟨"r1", q81, mkP "p1"⟩, ⟨"r2", q95, mkP "p2"⟩,
   ⟨"r3", 1, mkP "p3"⟩, ⟨"r4", q62, mkP "p4"⟩]

/-- A run store whose only run carries the sentinel metric `1.0`, so that no
run passes the `metrics.valid_roc_auc < 1` filter. -/
def sentinelRuns : List MlRun := [⟨"r1", 1, mkP "s"⟩]

/-- A concrete configuration: one dataset, two configured columns. -/
def exCfg : Config :=
  ⟨[("train", "train.csv")], some ["c1", "c2"], some "model_prob_loan"⟩

/-- A concrete CSV: three columns, two rows. -/
def exDf : DataFrame :=
  ⟨["c1", "c2", "c3"], [["a", "b", "c"], ["d", "e", "f"]]⟩

/-- A concrete filesystem holding the configured CSV. -/
def exFs : FileSystem := [("data/raw/train.csv", exDf)]

/-- A concrete registry with two existing versions, the alias on version 1. -/
def exReg : Registry := ⟨[1, 2], some 1⟩

deriving instance DecidableEq for Except

/-- Sanity: `q62`, `q81`, `q95` denote the decimal metrics of the example. -/
theorem qvals_eq : q62 = 0.62 ∧ q81 = 0.81 ∧ q95 = 0.95 := by
  refine ⟨?_, ?_, ?_⟩ <;>
    first
      | (unfold q62; rw [Rat.mk'_eq_divInt]; norm_num [Rat.divInt_eq_div])
      | (unfold q81; rw [Rat.mk'_eq_divInt]; norm_num [Rat.divInt_eq_div])
      | (unfold q95; rw [Rat.mk'_eq_divInt]; norm_num [Rat.divInt_eq_div])

/-- A store with two runs tied at metric `0.81` but distinct parameters. -/
def tiedRuns : List MlRun := [⟨"t1", q81, mkP "t1"⟩, ⟨"t2", q81, mkP "t2"⟩]

theorem bestOf_eq_none {l : List MlRun} (h : bestOf l = none) : l = [] := by
  cases l with
  | nil => rfl
  | cons r rs =>
    exfalso
    simp only [bestOf] at h
    cases hb : bestOf rs with
    | none => simp only [hb] at h; exact Option.noConfusion h
    | some b =>
      simp only [hb] at h
      by_cases hc : b.valid_roc_auc > r.valid_roc_auc <;> simp [hc] at h

theorem bestOf_mem {l : List MlRun} {b : MlRun} (h : bestOf l = some b) :
    b ∈ l := by
  induction l with
  | nil => simp [bestOf] at h
  | cons r rs ih =>
    simp only [bestOf] at h
    cases hb : bestOf rs with
    | none =>
      simp only [hb] at h
      obtain rfl := Option.some.inj h
      exact List.mem_cons_self r rs
    | some b' =>
      simp only [hb] at h
      by_cases hc : b'.valid_roc_auc > r.valid_roc_auc
      · simp only [if_pos hc] at h
        obtain rfl := Option.some.inj h
        exact List.mem_cons_of_mem r (ih hb)
      · simp only [if_neg hc] at h
        obtain rfl := Option.some.inj h
        exact List.mem_cons_self r rs

theorem bestOf_le : ∀ {l : List MlRun} {b : MlRun}, bestOf l = some b →
    ∀ r ∈ l, r.valid_roc_auc ≤ b.valid_roc_auc := by
  intro l
  induction l with
  | nil => intro b h; simp [bestOf] at h
  | cons x rs ih =>
    intro b h r hr
    simp only [bestOf] at h
    cases hb : bestOf rs with
    | none =>
      simp only [hb] at h
      obtain rfl := Option.some.inj h
      have hrs : rs = [] := bestOf_eq_none hb
      subst hrs
      rcases List.mem_singleton.mp hr with rfl
      exact le_refl _
    | some b' =>
      simp only [hb] at h
      by_cases hc : b'.valid_roc_auc > x.valid_roc_auc
      · simp only [if_pos hc] at h
        obtain rfl := Option.some.inj h
        rcases List.mem_cons.mp hr with rfl | hmem
        · exact le_of_lt hc
        · exact ih hb r hmem
      · simp only [if_neg hc] at h
        obtain rfl := Option.some.inj h
        rcases List.mem_cons.mp hr with rfl | hmem
        · exact le_refl _
        · exact le_trans (ih hb r hmem) (le_of_not_lt hc)

/-- C1: `get_best_model` considers only historical runs whose validation
metric is strictly below `1` and returns the metric and hyperparameter set
of a run attaining the maximum among them: whenever it returns `(m, p)`,
some run with metric `m < 1` and parameters `p` is in the store, and every
run with metric below `1` has metric at most `m`.  (The witness instantiates
this at the spec's example metrics `{0.81, 0.95, 1.0, 0.62}`, where the
selected metric is `0.95`.) -/
theorem get_best_model_selects_max (runs : List MlRun) (m : ℚ) (p : Params)
    (h : get_best_model runs = .ok (m, p)) :
    (∃ r ∈ runs, r.valid_roc_auc < 1 ∧ r.valid_roc_auc = m ∧ r.params = p) ∧
    ∀ r ∈ runs, r.valid_roc_auc < 1 → r.valid_roc_auc ≤ m := by
  unfold get_best_model at h
  cases hb : bestOf (eligible runs) with
  | none => rw [hb] at h; exact Except.noConfusion h
  | some b =>
    rw [hb] at h
    have hinj := Except.ok.inj h
    have hm1 : b.valid_roc_auc = m := congrArg Prod.fst hinj
    have hm2 : b.params = p := congrArg Prod.snd hinj
    have hmemf := List.mem_filter.mp (bestOf_mem hb)
    constructor
    · exact ⟨b, hmemf.1, by simpa using hmemf.2, hm1, hm2⟩
    · intro r hr hlt
      have hre : r ∈ eligible runs :=
        List.mem_filter.mpr ⟨hr, by simpa using hlt⟩
      exact hm1 ▸ bestOf_le hb r hre

/-- Witness for C1 at the spec's example: among metrics
`{0.81, 0.95, 1.0, 0.62}` the run with metric `0.95` is selected, with its
hyperparameters. -/
theorem get_best_model_selects_max_witness :
    get_best_model exRuns = .ok (q95, mkP "p2") ∧
    ((∃ r ∈ exRuns, r.valid_roc_auc < 1 ∧ r.valid_roc_auc = q95 ∧
        r.params = mkP "p2") ∧
     ∀ r ∈ exRuns, r.valid_roc_auc < 1 → r.valid_roc_auc ≤ q95) :=
  ⟨by decide, get_best_model_selects_max exRuns q95 (mkP "p2") (by decide)⟩

/-- C2: with zero eligible historical runs (none with metric strictly below
`1`), `get_best_model` does not signal a `NoEligibleRunError` — it reaches
`idxmax` on an empty filtered frame, which raises an unhandled pandas
`ValueError` (a crash), modelled by `SelectErr.emptyIdxmaxCrash`.  Shown both
for a store holding only the sentinel metric `1.0` and for an empty store. -/
theorem get_best_model_crash_no_eligible :
    eligible sentinelRuns = [] ∧
    get_best_model sentinelRuns = .error .emptyIdxmaxCrash ∧
    get_best_model ([] : List MlRun) = .error .emptyIdxmaxCrash := by decide

/-- C9: selection is idempotent over a fixed store — `search_runs` is a
read-only query, so an invocation of `get_best_model` leaves the store
unchanged, and a second consecutive invocation returns the same best metric
and hyperparameter set (the witness exercises this on a store with two runs
tied at the maximum metric). -/
theorem selectBest_idempotent (store s1 : List MlRun)
    (res : Except SelectErr (ℚ × Params))
    (h : selectBest_st store = (res, s1)) :
    selectBest_st s1 = (res, s1) := by
  simp only [selectBest_st, search_runs_st, Prod.mk.injEq] at h ⊢
  obtain ⟨rfl, rfl⟩ := h
  trivial

/-- Witness for C9 on the store with two runs tied at metric `0.81`: both
consecutive invocations return the earlier tied run's metric and
parameters. -/
theorem selectBest_idempotent_witness :
    selectBest_st tiedRuns = (.ok (q81, mkP "t1"), tiedRuns) ∧
    selectBest_st tiedRuns = (.ok (q81, mkP "t1"), tiedRuns) :=
  ⟨by decide, selectBest_idempotent tiedRuns tiedRuns _ (by decide)⟩

theorem load_data_error_outcome (cfg : Config) (fs : FileSystem)
    (name : String) (e : LoadErr)
    (h : (load_data_core cfg fs name).1 = .error e) :
    load_data cfg fs name =
      ⟨none, [loadErrMsg e], (load_data_core cfg fs name).2⟩ := by
  unfold load_data
  rcases hc : load_data_core cfg fs name with ⟨r, reads⟩
  rw [hc] at h
  dsimp at h
  subst h
  rfl

/-- C3 counterexample: on the concrete configuration `exCfg`, looking up the
unknown name `"unknown"` makes `load_data` return `None` to the caller — a
silent null, not a surfaced `ConfigurationError` — refuting the claim that
the error is signalled to the caller.  (It does log the error message and
performs no file read.) -/
theorem load_data_unknown_silent_null :
    load_data exCfg exFs "unknown" =
      ⟨none, [loadErrMsg (.configError "unknown")], []⟩ := by decide

/-- C3 amended: for a dataset name absent from the configuration, `load_data`
raises the `ValueError` (`ConfigurationError`) internally before any file
access, but the handler catches and logs it, and the caller receives `None`
(a silent null) with no file read performed. -/
theorem load_data_unknown_amended (cfg : Config) (fs : FileSystem)
    (name : String) (h : cfg.datasets.lookup name = none) :
    load_data_core cfg fs name = (.error (.configError name), []) ∧
    load_data cfg fs name = ⟨none, [loadErrMsg (.configError name)], []⟩ := by
  have hc : load_data_core cfg fs name = (.error (.configError name), []) := by
    unfold load_data_core
    rw [h]
  refine ⟨hc, ?_⟩
  have := load_data_error_outcome cfg fs name (.configError name) (by rw [hc])
  rw [this, hc]

/-- Witness for the amended C3 at the concrete configuration. -/
theorem load_data_unknown_amended_witness :
    exCfg.datasets.lookup "missing" = none ∧
    (load_data_core exCfg exFs "missing" =
        (.error (.configError "missing"), []) ∧
     load_data exCfg exFs "missing" =
        ⟨none, [loadErrMsg (.configError "missing")], []⟩) :=
  ⟨by decide, load_data_unknown_amended exCfg exFs "missing" (by decide)⟩

/-- C6: every failure of the `try` block of `load_data` — unknown name,
missing file, absent column configuration, or requested columns absent — is
caught, logged (`errorLog` nonempty) and swallowed: the caller receives
`None`, and the caller-visible result is the same `None` whatever the
failure cause was, so causes are indistinguishable from the result. -/
theorem load_data_swallows_errors (cfg : Config) (fs : FileSystem)
    (name : String) (e : LoadErr)
    (h : (load_data_core cfg fs name).1 = .error e) :
    (load_data cfg fs name).result = none ∧
    (load_data cfg fs name).errorLog = [loadErrMsg e] ∧
    ∀ (cfg' : Config) (fs' : FileSystem) (name' : String) (e' : LoadErr),
      (load_data_core cfg' fs' name').1 = .error e' →
      (load_data cfg' fs' name').result = (load_data cfg fs name).result := by
  refine ⟨?_, ?_, ?_⟩
  · rw [load_data_error_outcome cfg fs name e h]
  · rw [load_data_error_outcome cfg fs name e h]
  · intro cfg' fs' name' e' h'
    rw [load_data_error_outcome cfg' fs' name' e' h',
      load_data_error_outcome cfg fs name e h]

/-- Witness for C6 at a concrete failing load (unknown dataset name). -/
theorem load_data_swallows_errors_witness :
    (load_data_core exCfg exFs "missing").1 =
      .error (.configError "missing") ∧
    ((load_data exCfg exFs "missing").result = none ∧
     (load_data exCfg exFs "missing").errorLog =
       [loadErrMsg (.configError "missing")] ∧
     ∀ (cfg' : Config) (fs' : FileSystem) (name' : String) (e' : LoadErr),
       (load_data_core cfg' fs' name').1 = .error e' →
       (load_data cfg' fs' name').result =
         (load_data exCfg exFs "missing").result) :=
  ⟨by decide,
   load_data_swallows_errors exCfg exFs "missing" (.configError "missing")
     (by decide)⟩

/-- C7: for a dataset name present in the configuration, whose file exists
and contains the configured columns, `load_data` returns a frame whose
column list is exactly the configured `columns_to_use`, whose row count
equals the source CSV's row count, and whose rows are the projections of the
source rows in file order. -/
theorem load_data_valid_name (cfg : Config) (fs : FileSystem)
    (name file : String) (df : DataFrame) (cs : List String)
    (h1 : cfg.datasets.lookup name = some file)
    (h2 : fs.lookup (datasetPath file) = some df)
    (h3 : cfg.columns_to_use = some cs)
    (h4 : cs.all (fun c => df.cols.contains c) = true) :
    ∃ out, (load_data cfg fs name).result = some out ∧
      out.cols = cs ∧
      out.rows.length = df.rows.length ∧
      out.rows = df.rows.map (fun r => cs.map (df.cell r)) := by
  have hc : load_data_core cfg fs name =
      (.ok ⟨cs, df.rows.map (fun r => cs.map (df.cell r))⟩,
       [datasetPath file]) := by
    simp only [load_data_core, h1, h2, h3, DataFrame.select, h4, if_true]
  refine ⟨⟨cs, df.rows.map (fun r => cs.map (df.cell r))⟩, ?_, rfl, ?_, rfl⟩
  · unfold load_data
    rw [hc]
  · simp

/-- Witness for C7 at the concrete configuration and filesystem. -/
theorem load_data_valid_name_witness :
    ∃ out, (load_data exCfg exFs "train").result = some out ∧
      out.cols = ["c1", "c2"] ∧
      out.rows.length = exDf.rows.length ∧
      out.rows = exDf.rows.map (fun r => ["c1", "c2"].map (exDf.cell r)) :=
  load_data_valid_name exCfg exFs "train" "train.csv" exDf ["c1", "c2"]
    (by decide) (by decide) (by decide) (by decide)

/-- True of the tag-logging event. -/
def isSetTag : Event → Bool
  | .setTag _ => true
  | _ => false

theorem trainRun_ok (runs : List MlRun) (reg : Registry) (m : ℚ)
    (v : ℚ × Params) (hgb : get_best_model runs = .ok v) :
    trainRun runs reg m = .ok
      ({ versions := reg.versions ++ [reg.versions.length + 1],
         alias_modelo := some (reg.versions.length + 1) },
       [Event.startRun, Event.setTag "model_name", Event.endRun,
        Event.fitPipeline, Event.logMetric "valid_roc_auc" m,
        Event.registerModel (reg.versions.length + 1),
        Event.setAlias "modelo" (reg.versions.length + 1)]) := by
  unfold trainRun
  rw [hgb]
  simp only [register_model, latest_versions]
  rw [List.getLast?_concat]
  rfl

/-- C4: whenever `run` completes, the alias `"modelo"` on the registered
model points at exactly the version this invocation just registered
(`latest_versions[-1]`, the successor of the previous version count) —
unconditionally: the statement imposes no relation between the new metric
`m` and whatever the previous alias pointed at, and the final conjunct shows
the resulting registry is the same for every metric value (last write
wins). -/
theorem run_alias_last_write (runs : List MlRun) (reg : Registry) (m : ℚ)
    (reg' : Registry) (tr : List Event)
    (h : trainRun runs reg m = .ok (reg', tr)) :
    reg'.alias_modelo = some (reg.versions.length + 1) ∧
    reg'.versions = reg.versions ++ [reg.versions.length + 1] ∧
    Event.registerModel (reg.versions.length + 1) ∈ tr ∧
    ∀ m' : ℚ, ∃ tr', trainRun runs reg m' = .ok (reg', tr') := by
  rcases hgb : get_best_model runs with e | v
  · unfold trainRun at h
    rw [hgb] at h
    exact Except.noConfusion h
  · rw [trainRun_ok runs reg m v hgb] at h
    obtain ⟨hreg, htr⟩ := Prod.mk.inj (Except.ok.inj h)
    subst hreg
    subst htr
    refine ⟨rfl, rfl, by simp, fun m' => ⟨_, trainRun_ok runs reg m' v hgb⟩⟩

/-- Witness for C4: the registry holds versions `[1, 2]` with the alias on
version `1`; after a `run` whose new model scores only `0.62`, the alias
points at the newly registered version `3`. -/
theorem run_alias_last_write_witness :
    trainRun exRuns exReg q62 = .ok
      (⟨[1, 2, 3], some 3⟩,
       [Event.startRun, Event.setTag "model_name", Event.endRun,
        Event.fitPipeline, Event.logMetric "valid_roc_auc" q62,
        Event.registerModel 3, Event.setAlias "modelo" 3]) ∧
    ((⟨[1, 2, 3], some 3⟩ : Registry).alias_modelo = some 3 ∧
     (⟨[1, 2, 3], some 3⟩ : Registry).versions = [1, 2, 3] ∧
     Event.registerModel 3 ∈
       [Event.startRun, Event.setTag "model_name", Event.endRun,
        Event.fitPipeline, Event.logMetric "valid_roc_auc" q62,
        Event.registerModel 3, Event.setAlias "modelo" 3] ∧
     ∀ m' : ℚ, ∃ tr',
       trainRun exRuns exReg m' = .ok (⟨[1, 2, 3], some 3⟩, tr')) :=
  ⟨by decide, run_alias_last_write exRuns exReg q62 _ _ (by decide)⟩

/-- The trace of the concrete `run` invocation used for C8: registry
`exReg`, evaluation metric `0.81`. -/
def exTrace : List Event :=
  [Event.startRun, Event.setTag "model_name", Event.endRun,
   Event.fitPipeline, Event.logMetric "valid_roc_auc" q81,
   Event.registerModel 3, Event.setAlias "modelo" 3]

/-- C8 counterexample: in the concrete `run` invocation producing `exTrace`,
the only metric-logging event sits at position 4, but the scoped run context
(opened at position 0) was already closed at position 2, so the run context
is not open when the metric is logged — refuting the claim that the metric
is logged within the scoped run context. -/
theorem metric_logged_after_context_closed :
    trainRun exRuns exReg q81 = .ok (⟨[1, 2, 3], some 3⟩, exTrace) ∧
    exTrace.findIdx? isLogMetric = some 4 ∧
    runOpenAt exTrace 4 = false := by decide

/-- C8 amended: in every completing `run` invocation, the model-name tag is
logged inside the scoped run context (position 1, context open), but the
scalar metric is logged only after the context has closed (position 4,
context no longer open); the metric is still logged before the model
registration (position 5). -/
theorem run_context_and_metric_order (runs : List MlRun) (reg : Registry)
    (m : ℚ) (reg' : Registry) (tr : List Event)
    (h : trainRun runs reg m = .ok (reg', tr)) :
    tr.findIdx? isSetTag = some 1 ∧
    runOpenAt tr 1 = true ∧
    tr.findIdx? isLogMetric = some 4 ∧
    runOpenAt tr 4 = false ∧
    tr.findIdx? isRegisterModel = some 5 := by
  rcases hgb : get_best_model runs with e | v
  · unfold trainRun at h
    rw [hgb] at h
    exact Except.noConfusion h
  · rw [trainRun_ok runs reg m v hgb] at h
    obtain ⟨hreg, htr⟩ := Prod.mk.inj (Except.ok.inj h)
    subst htr
    exact ⟨rfl, rfl, rfl, rfl, rfl⟩

/-- Witness for the amended C8 at the concrete invocation behind
`exTrace`. -/
theorem run_context_and_metric_order_witness :
    trainRun exRuns exReg q81 = .ok (⟨[1, 2, 3], some 3⟩, exTrace) ∧
    (exTrace.findIdx? isSetTag = some 1 ∧
     runOpenAt exTrace 1 = true ∧
     exTrace.findIdx? isLogMetric = some 4 ∧
     runOpenAt exTrace 4 = false ∧
     exTrace.findIdx? isRegisterModel = some 5) :=
  ⟨by decide,
   run_context_and_metric_order exRuns exReg q81 ⟨[1, 2, 3], some 3⟩ exTrace
     (by decide)⟩

/-- C5 counterexample: on the pipeline assigning probability `1/2` to every
row, the values `run` hands to the evaluation helper are
`[Real.log (1/2)]`, which differ from the positive-class probabilities
`[1/2]` — refuting the claim that the passed values are the predicted
probabilities: `run` calls `predict_log_proba`, not `predict_proba`. -/
theorem eval_args_not_probabilities :
    (evaluation_args constHalfPipe [1]).2 ≠ predict_proba_pos constHalfPipe 1 := by
  intro heq
  have h1 : Real.log (1 / 2 : ℝ) = (1 / 2 : ℝ) := by
    have hh := congrArg (fun l => l.headD 0) heq
    simpa [evaluation_args, predict_log_proba_pos, predict_proba_pos,
      constHalfPipe, List.range_succ] using hh
  have h2 : Real.log (1 / 2 : ℝ) < 0 := Real.log_neg (by norm_num) (by norm_num)
  rw [h1] at h2
  norm_num at h2

/-- C5 amended: the values `run` passes to the external evaluation helper
alongside the true labels are the natural logarithms of the fitted
pipeline's positive-class probabilities on the same data used for fitting
(`predict_log_proba(X)[:, 1]`), one per label row, and the evaluation
applied to exactly those two arguments produces the scalar metric that is
then logged. -/
theorem eval_args_are_log_probas (p : FittedPipe) (y : List ℝ)
    (ev : List ℝ → List ℝ → ℝ) :
    (evaluation_args p y).1 = y ∧
    (evaluation_args p y).2 = (predict_proba_pos p y.length).map Real.log ∧
    logged_eval_metric ev p y =
      ev y ((predict_proba_pos p y.length).map Real.log) := by
  refine ⟨rfl, ?_, ?_⟩
  · simp only [evaluation_args, predict_log_proba_pos, predict_proba_pos,
      List.map_map]
    rfl
  · simp only [logged_eval_metric, evaluation_args, predict_log_proba_pos,
      predict_proba_pos, List.map_map]
    rfl

/-- A hyperparameter set recording `fit_intercept = "True"`. -/
def pIntTrue : Params := { mkP "x" with fit_intercept := "True" }

/-- The same hyperparameter set except `fit_intercept = "False"`. -/
def pIntFalse : Params := { mkP "x" with fit_intercept := "False" }

/-- C10: the classifier `run` constructs does not depend on the recorded
intercept-fitting hyperparameter: for any two hyperparameter sets that agree
everywhere except possibly on `fit_intercept`, the constructed classifiers —
the seven passed constructor arguments together with the library-default
intercept behaviour — are identical. -/
theorem run_ignores_fit_intercept (p q : Params)
    (h : q = { p with fit_intercept := q.fit_intercept }) :
    built_classifier p = built_classifier q := by
  rw [h]
  rfl

/-- Witness for C10: two hyperparameter sets differing exactly in
`fit_intercept` (`"True"` vs `"False"`) yield identical classifiers. -/
theorem run_ignores_fit_intercept_witness :
    pIntTrue ≠ pIntFalse ∧
    pIntFalse = { pIntTrue with fit_intercept := pIntFalse.fit_intercept } ∧
    built_classifier pIntTrue = built_classifier pIntFalse :=
  ⟨by decide, by decide,
   run_ignores_fit_intercept pIntTrue pIntFalse (by decide)⟩
